import Mathlib

/-!
# Verification of the pyietflib ISO 8601 date/time engine specification

Shallow embedding of `pyietflib/iso8601/date.py` and `pyietflib/iso8601/time.py`.
Python integers are modelled as `Int`; Python `%` on a positive divisor is
`Int.emod` and Python floor division `//` is `Int.fdiv`.  A Python function
that can raise (`ValueError`, `IndexError`) is modelled as returning an
`Option`.  Field names and function names follow the source.
-/

namespace Pyietflib

namespace isodate

/-- The leap-year expression that `date.py` repeats verbatim in
`is_leap_year`, `compute_all_fields`, `calendar_from_ordinal` and
`ordinal_from_calendar`:
`year % 4 == 0 and (century != 0 or century % 4 == 0)`. -/
def pyLeap (century year : Int) : Bool :=
  year.emod 4 == 0 && (century != 0 || century.emod 4 == 0)

/-- One entry of the `isodate.months` class property: days in the month,
days in a leap year, ordinal day range, and ordinal day range in a leap
year (the month name is dropped). -/
structure MonthEntry where
  days : Int
  leapDays : Int
  start : Int
  stop : Int
  leapStart : Int
  leapStop : Int
deriving DecidableEq, Repr

/-- The `isodate.months` table (index 0 is the padding entry `(None, 0, 0,
(0, 0), (0, 0))` from the source). -/
def months : List MonthEntry := [
  ⟨0, 0, 0, 0, 0, 0⟩,
  ⟨31, 31, 1, 31, 1, 31⟩,
  ⟨28, 29, 32, 59, 32, 60⟩,
  ⟨31, 31, 60, 90, 61, 91⟩,
  ⟨30, 30, 91, 120, 92, 121⟩,
  ⟨31, 31, 121, 151, 122, 152⟩,
  ⟨30, 30, 152, 181, 153, 182⟩,
  ⟨31, 31, 182, 212, 183, 213⟩,
  ⟨31, 31, 213, 243, 214, 244⟩,
  ⟨30, 30, 244, 273, 245, 274⟩,
  ⟨31, 31, 274, 304, 275, 305⟩,
  ⟨30, 30, 305, 334, 306, 335⟩,
  ⟨31, 31, 335, 365, 336, 366⟩]

/-- Python list indexing `cls.months[month]`: indices 0..12 directly,
negative indices -13..-1 wrap from the end, anything else raises
`IndexError` (modelled as `none`). -/
def monthEntry (month : Int) : Option MonthEntry :=
  if 0 ≤ month then months.get? month.toNat
  else if -13 ≤ month then months.get? (month + 13).toNat
  else none

/-- `isodate.__adjustment_to_jan_1_day_of_year`.  The final `0` branch is
unreachable: `jan1dow = 1 + (_ % 7)` always lies in `[1, 7]`, so the Python
dict lookup never raises `KeyError`. -/
def adjustment_to_jan_1_day_of_year (expanded century year : Int) : Int :=
  let yby := expanded * 10000 + century * 100 + year - 1
  let yofc := yby.emod 100
  let cby := yby - yofc
  let gfac := yofc + yofc.fdiv 4
  let jan1dow := 1 + ((((cby.fdiv 100).emod 4) * 5 + gfac).emod 7)
  if jan1dow = 1 then 0
  else if jan1dow = 2 then -1
  else if jan1dow = 3 then -2
  else if jan1dow = 4 then -3
  else if jan1dow = 5 then 3
  else if jan1dow = 6 then 2
  else if jan1dow = 7 then 1
  else 0

/-- `isodate.weekdate_from_ordinal`: returns
`(weekcentury, weekdecade, weekyearofdec, weekofyear, dayofweek)`.
Note that in the `week == 53 and dow < 4` branch the source sets
`week = 1` but leaves `weekyear` unchanged. -/
def weekdate_from_ordinal (expanded century year dayofyear : Int) :
    Int × Int × Int × Int × Int :=
  let weekyear := expanded * 10000 + century * 100 + year
  let adjust := adjustment_to_jan_1_day_of_year expanded century year
  let dow0 := (dayofyear - adjust).emod 7
  let dow := if dow0 = 0 then 7 else dow0
  let week := (dayofyear - dow + 10).fdiv 7
  if week = 0 then
    let weekyear := weekyear - 1
    let pyd : Int :=
      if ¬(weekyear.emod 4 = 0 ∧ (weekyear.emod 100 ≠ 0 ∨ weekyear.emod 400 = 0))
      then 365 else 366
    let week := (pyd + dayofyear - dow + 10).fdiv 7
    (weekyear.fdiv 100, (weekyear.emod 100).fdiv 10, weekyear.emod 10, week, dow)
  else if week = 53 ∧ dow < 4 then
    (weekyear.fdiv 100, (weekyear.emod 100).fdiv 10, weekyear.emod 10, 1, dow)
  else
    (weekyear.fdiv 100, (weekyear.emod 100).fdiv 10, weekyear.emod 10, week, dow)

/-- The linear scan in `isodate.calendar_from_ordinal` over the enumerated
`months` list: the first entry whose (leap-selected) ordinal range contains
`dayofyear` yields the month index and the day of month. -/
def calSearch (leap : Bool) (dayofyear : Int) :
    List MonthEntry → Int → Option (Int × Int)
  | [], _ => none
  | ent :: rest, i =>
    let lo := if leap then ent.leapStart else ent.start
    let hi := if leap then ent.leapStop else ent.stop
    if lo ≤ dayofyear ∧ dayofyear ≤ hi then some (i, dayofyear - lo + 1)
    else calSearch leap dayofyear rest (i + 1)

/-- `isodate.calendar_from_ordinal`: month and day of month for a day of
year; raises `ValueError` (modelled `none`) when no month range matches. -/
def calendar_from_ordinal (expanded century year dayofyear : Int) :
    Option (Int × Int × Int × Int × Int) :=
  match calSearch (pyLeap century year) dayofyear months 0 with
  | none => none
  | some (i, dm) => some (expanded, century, year, i, dm)

/-- `isodate.ordinal_from_calendar` (raises `IndexError` on a bad month
index, modelled `none`). -/
def ordinal_from_calendar (expanded century year month dayofmonth : Int) :
    Option (Int × Int × Int × Int) :=
  match monthEntry month with
  | none => none
  | some ent =>
    some (expanded, century, year,
      (if pyLeap century year then ent.leapStart else ent.start) + dayofmonth - 1)

/-- The fully-resolved field set stored on an `isodate` object. -/
structure DateFields where
  iso_expanded : Int
  iso_century : Int
  iso_year : Int
  iso_month : Int
  iso_dayofmonth : Int
  iso_dayofyear : Int
  iso_weekcentury : Int
  iso_weekdecade : Int
  iso_weekyearofdec : Int
  iso_weekofyear : Int
  iso_dayofweek : Int
deriving DecidableEq, Repr

/-- `isodate.epoc()`: 1 Jan 0001. -/
def epoc : DateFields := ⟨0, 0, 1, 1, 1, 1, 0, 0, 1, 1, 1⟩

/-- The ordinal stored by the `iso_implied` setter:
`yby*365 + yby//4 - yby//100 + yby//400 + dayofyear`. -/
def toordinal (f : DateFields) : Int :=
  let yby := f.iso_expanded * 10000 + f.iso_century * 100 + f.iso_year - 1
  yby * 365 + yby.fdiv 4 - yby.fdiv 100 + yby.fdiv 400 + f.iso_dayofyear

/-- `isodate.__eq__` compares `toordinal()` values. -/
def dateEq (a b : DateFields) : Bool := toordinal a == toordinal b

/-- `isodate.is_leap_year`: components not given are taken from today. -/
def is_leap_year (expanded century year : Option Int) (today : DateFields) : Bool :=
  pyLeap (century.getD today.iso_century) (year.getD today.iso_year)

/-- `isodate.days_in_month`. -/
def days_in_month (expanded century year : Option Int) (month : Int)
    (today : DateFields) : Option Int :=
  (monthEntry month).map fun ent =>
    if is_leap_year expanded century year today then ent.leapDays else ent.days

/-- `isodate.days_in_year`. -/
def days_in_year (expanded century year : Option Int) (today : DateFields) : Int :=
  if ¬(is_leap_year expanded century year today = true) then 365 else 366

/-- `isodate.compute_all_fields`: fill in every `None` field from the
implied reference `refdate` and return the full field set; an
out-of-range day of year or a failed month-table lookup raises
`ValueError`/`IndexError` (modelled `none`).  The supplied field groups
are consulted in the source's priority order: `dayofyear`, then
`month`/`dayofmonth`, then `weekofyear`/`dayofweek`, then none given. -/
def compute_all_fields (expanded century year month dayofmonth dayofyear
    weekcentury weekdecade weekyearofdec weekofyear dayofweek : Option Int)
    (refdate : DateFields) : Option DateFields :=
  let e := expanded.getD refdate.iso_expanded
  let c := century.getD refdate.iso_century
  let y := year.getD refdate.iso_year
  let wc := weekcentury.getD refdate.iso_weekcentury
  let wd := weekdecade.getD refdate.iso_weekdecade
  let wyd := weekyearofdec.getD refdate.iso_weekyearofdec
  let leap := pyLeap c y
  match dayofyear with
  | some doy =>
    if doy < 0 ∨ doy > (if leap then 366 else 365) then none
    else
      match calendar_from_ordinal e c y doy with
      | none => none
      | some (e2, c2, y2, m2, dm2) =>
        let w := weekdate_from_ordinal e c y doy
        some ⟨e2, c2, y2, m2, dm2, doy, w.1, w.2.1, w.2.2.1, w.2.2.2.1, w.2.2.2.2⟩
  | none =>
  match month with
  | some m =>
    let dm := dayofmonth.getD refdate.iso_dayofmonth
    match monthEntry m with
    | none => none
    | some ent =>
      let doy := (if leap then ent.leapStart else ent.start) + dm - 1
      let w := weekdate_from_ordinal e c y doy
      some ⟨e, c, y, m, dm, doy, w.1, w.2.1, w.2.2.1, w.2.2.2.1, w.2.2.2.2⟩
  | none =>
  match dayofmonth with
  | some dm =>
    let m := refdate.iso_month
    match monthEntry m with
    | none => none
    | some ent =>
      let doy := (if leap then ent.leapStart else ent.start) + dm - 1
      let w := weekdate_from_ordinal e c y doy
      some ⟨e, c, y, m, dm, doy, w.1, w.2.1, w.2.2.1, w.2.2.2.1, w.2.2.2.2⟩
  | none =>
  match weekofyear with
  | some woy =>
    let dow := dayofweek.getD refdate.iso_dayofweek
    let adjust := adjustment_to_jan_1_day_of_year e c y
    let doy := (woy - 1) * 7 + dow + adjust
    match calendar_from_ordinal e c y doy with
    | none => none
    | some (_, _, _, m2, dm2) =>
      some ⟨e, c, y, m2, dm2, doy, wc, wd, wyd, woy, dow⟩
  | none =>
  match dayofweek with
  | some dow =>
    let woy := refdate.iso_weekofyear
    let adjust := adjustment_to_jan_1_day_of_year e c y
    let doy := (woy - 1) * 7 + dow + adjust
    match calendar_from_ordinal e c y doy with
    | none => none
    | some (_, _, _, m2, dm2) =>
      some ⟨e, c, y, m2, dm2, doy, wc, wd, wyd, woy, dow⟩
  | none =>
    let doy := refdate.iso_dayofyear
    match calendar_from_ordinal e c y doy with
    | none => none
    | some (e2, c2, y2, m2, dm2) =>
      let w := weekdate_from_ordinal e c y doy
      some ⟨e2, c2, y2, m2, dm2, doy, w.1, w.2.1, w.2.2.1, w.2.2.2.1, w.2.2.2.2⟩

/-- The argument set supplied to the `isodate` constructor (the
`__orig_*` fields apart from `expanded`); `none` models Python `None`. -/
structure PartialDate where
  century : Option Int
  year : Option Int
  month : Option Int
  dayofmonth : Option Int
  dayofyear : Option Int
  weekcentury : Option Int
  weekdecade : Option Int
  weekyearofdec : Option Int
  weekofyear : Option Int
  dayofweek : Option Int
deriving DecidableEq, Repr

/-- No date component supplied at all. -/
def emptyPartial : PartialDate :=
  ⟨none, none, none, none, none, none, none, none, none, none⟩

/-- Named groups of the date regular expressions. -/
inductive GroupId
  | century
  | year
  | month
  | dayofmonth
  | dayofyear
  | weekcentury
  | weekdecade
  | weekyearofdec
  | weekofyear
  | dayofweek
deriving DecidableEq, Repr

/-- Record the integer value of a named group. -/
def setGroup : GroupId → Int → PartialDate → PartialDate
  | .century, n, p => ⟨some n, p.year, p.month, p.dayofmonth, p.dayofyear,
      p.weekcentury, p.weekdecade, p.weekyearofdec, p.weekofyear, p.dayofweek⟩
  | .year, n, p => ⟨p.century, some n, p.month, p.dayofmonth, p.dayofyear,
      p.weekcentury, p.weekdecade, p.weekyearofdec, p.weekofyear, p.dayofweek⟩
  | .month, n, p => ⟨p.century, p.year, some n, p.dayofmonth, p.dayofyear,
      p.weekcentury, p.weekdecade, p.weekyearofdec, p.weekofyear, p.dayofweek⟩
  | .dayofmonth, n, p => ⟨p.century, p.year, p.month, some n, p.dayofyear,
      p.weekcentury, p.weekdecade, p.weekyearofdec, p.weekofyear, p.dayofweek⟩
  | .dayofyear, n, p => ⟨p.century, p.year, p.month, p.dayofmonth, some n,
      p.weekcentury, p.weekdecade, p.weekyearofdec, p.weekofyear, p.dayofweek⟩
  | .weekcentury, n, p => ⟨p.century, p.year, p.month, p.dayofmonth, p.dayofyear,
      some n, p.weekdecade, p.weekyearofdec, p.weekofyear, p.dayofweek⟩
  | .weekdecade, n, p => ⟨p.century, p.year, p.month, p.dayofmonth, p.dayofyear,
      p.weekcentury, some n, p.weekyearofdec, p.weekofyear, p.dayofweek⟩
  | .weekyearofdec, n, p => ⟨p.century, p.year, p.month, p.dayofmonth, p.dayofyear,
      p.weekcentury, p.weekdecade, some n, p.weekofyear, p.dayofweek⟩
  | .weekofyear, n, p => ⟨p.century, p.year, p.month, p.dayofmonth, p.dayofyear,
      p.weekcentury, p.weekdecade, p.weekyearofdec, some n, p.dayofweek⟩
  | .dayofweek, n, p => ⟨p.century, p.year, p.month, p.dayofmonth, p.dayofyear,
      p.weekcentury, p.weekdecade, p.weekyearofdec, p.weekofyear, some n⟩

/-- One token of a compiled date pattern: a literal character or a named
group of exactly 1, 2 or 3 ASCII digits (`(?a)` mode). -/
inductive Tok
  | lit (ch : Char)
  | g1 (g : GroupId)
  | g2 (g : GroupId)
  | g3 (g : GroupId)
deriving DecidableEq, Repr

/-- Numeric value of an ASCII digit. -/
def dval (ch : Char) : Int := ((ch.toNat - 48 : Nat) : Int)

/-- Run one compiled pattern against the input, `re.match` style: the
pattern must match a prefix of the input (the table only offers patterns
whose total width equals the input length, so this is a full match in
practice). -/
def runPat : List Tok → List Char → PartialDate → Option PartialDate
  | [], _, p => some p
  | Tok.lit ch :: ts, x :: xs, p => if x = ch then runPat ts xs p else none
  | Tok.g1 g :: ts, x :: xs, p =>
    if x.isDigit then runPat ts xs (setGroup g (dval x) p) else none
  | Tok.g2 g :: ts, x :: y :: xs, p =>
    if x.isDigit ∧ y.isDigit then
      runPat ts xs (setGroup g (dval x * 10 + dval y) p)
    else none
  | Tok.g3 g :: ts, x :: y :: z :: xs, p =>
    if x.isDigit ∧ y.isDigit ∧ z.isDigit then
      runPat ts xs (setGroup g (dval x * 100 + dval y * 10 + dval z) p)
    else none
  | _, _, _ => none

/-- `isodate.representations`: the table of compiled patterns keyed by
(has hyphen, has 'W') and exact string length, with the pattern lists in
their declared order. -/
def representations (hyphen weekW : Bool) (len : Nat) :
    Option (List (List Tok)) :=
  match hyphen, weekW, len with
  | false, false, 8 => some [
      [Tok.g2 .century, Tok.g2 .year, Tok.g2 .month, Tok.g2 .dayofmonth]]
  | false, false, 7 => some [
      [Tok.g2 .century, Tok.g2 .year, Tok.g3 .dayofyear]]
  | false, false, 6 => some [
      [Tok.g2 .year, Tok.g2 .month, Tok.g2 .dayofmonth]]
  | false, false, 5 => some [
      [Tok.g2 .year, Tok.g3 .dayofyear]]
  | false, false, 4 => some [
      [Tok.g2 .century, Tok.g2 .year]]
  | false, false, 2 => some [
      [Tok.g2 .century]]
  | true, false, 10 => some [
      [Tok.g2 .century, Tok.g2 .year, Tok.lit '-', Tok.g2 .month,
        Tok.lit '-', Tok.g2 .dayofmonth]]
  | true, false, 8 => some [
      [Tok.g2 .century, Tok.g2 .year, Tok.lit '-', Tok.g3 .dayofyear],
      [Tok.g2 .year, Tok.lit '-', Tok.g2 .month, Tok.lit '-', Tok.g2 .dayofmonth]]
  | true, false, 7 => some [
      [Tok.g2 .century, Tok.g2 .year, Tok.lit '-', Tok.g2 .month],
      [Tok.lit '-', Tok.lit '-', Tok.g2 .month, Tok.lit '-', Tok.g2 .dayofmonth]]
  | true, false, 6 => some [
      [Tok.lit '-', Tok.g2 .year, Tok.lit '-', Tok.g2 .month],
      [Tok.lit '-', Tok.lit '-', Tok.g2 .month, Tok.g2 .dayofmonth],
      [Tok.g2 .year, Tok.lit '-', Tok.g3 .dayofyear]]
  | true, false, 5 => some [
      [Tok.lit '-', Tok.g2 .year, Tok.g2 .month],
      [Tok.lit '-', Tok.lit '-', Tok.lit '-', Tok.g2 .dayofmonth]]
  | true, false, 4 => some [
      [Tok.lit '-', Tok.lit '-', Tok.g2 .month],
      [Tok.lit '-', Tok.g3 .dayofyear]]
  | true, false, 3 => some [
      [Tok.lit '-', Tok.g2 .year]]
  | false, true, 8 => some [
      [Tok.g2 .weekcentury, Tok.g1 .weekdecade, Tok.g1 .weekyearofdec,
        Tok.lit 'W', Tok.g2 .weekofyear, Tok.g1 .dayofweek]]
  | false, true, 7 => some [
      [Tok.g2 .weekcentury, Tok.g1 .weekdecade, Tok.g1 .weekyearofdec,
        Tok.lit 'W', Tok.g2 .weekofyear]]
  | false, true, 6 => some [
      [Tok.g1 .weekdecade, Tok.g1 .weekyearofdec, Tok.lit 'W',
        Tok.g2 .weekofyear, Tok.g1 .dayofweek]]
  | false, true, 5 => some [
      [Tok.g1 .weekdecade, Tok.g1 .weekyearofdec, Tok.lit 'W', Tok.g2 .weekofyear]]
  | true, true, 10 => some [
      [Tok.g2 .weekcentury, Tok.g1 .weekdecade, Tok.g1 .weekyearofdec,
        Tok.lit '-', Tok.lit 'W', Tok.g2 .weekofyear, Tok.lit '-', Tok.g1 .dayofweek]]
  | true, true, 8 => some [
      [Tok.g2 .weekcentury, Tok.g1 .weekdecade, Tok.g1 .weekyearofdec,
        Tok.lit '-', Tok.lit 'W', Tok.g2 .weekofyear],
      [Tok.g1 .weekdecade, Tok.g1 .weekyearofdec, Tok.lit '-', Tok.lit 'W',
        Tok.g2 .weekofyear, Tok.lit '-', Tok.g1 .dayofweek],
      [Tok.lit '-', Tok.g1 .weekyearofdec, Tok.lit '-', Tok.lit 'W',
        Tok.g2 .weekofyear, Tok.lit '-', Tok.g1 .dayofweek]]
  | true, true, 6 => some [
      [Tok.g1 .weekdecade, Tok.g1 .weekyearofdec, Tok.lit '-', Tok.lit 'W',
        Tok.g2 .weekofyear],
      [Tok.lit '-', Tok.g1 .weekyearofdec, Tok.lit 'W', Tok.g2 .weekofyear,
        Tok.g1 .dayofweek],
      [Tok.lit '-', Tok.g1 .weekyearofdec, Tok.lit '-', Tok.lit 'W',
        Tok.g2 .weekofyear],
      [Tok.lit '-', Tok.lit 'W', Tok.g2 .weekofyear, Tok.lit '-', Tok.g1 .dayofweek]]
  | true, true, 5 => some [
      [Tok.lit '-', Tok.g1 .weekyearofdec, Tok.lit 'W', Tok.g2 .weekofyear],
      [Tok.lit '-', Tok.lit 'W', Tok.g2 .weekofyear, Tok.g1 .dayofweek]]
  | true, true, 4 => some [
      [Tok.lit '-', Tok.lit 'W', Tok.g2 .weekofyear],
      [Tok.lit '-', Tok.lit 'W', Tok.lit '-', Tok.g1 .dayofweek]]
  | _, _, _ => none

/-- Try the registered patterns in declared order and return the named
groups of the first structural match. -/
def firstMatch (pats : List (List Tok)) (v : List Char) : Option PartialDate :=
  match pats with
  | [] => none
  | pat :: rest =>
    match runPat pat v emptyPartial with
    | some r => some r
    | none => firstMatch rest v

/-- Integer value of a digit string. -/
def digitsToInt (ds : List Char) : Int :=
  ds.foldl (fun a ch => a * 10 + dval ch) 0

/-- Python `int()` on the expanded-prefix slice: an optional sign followed
by digits (other accepted forms, e.g. surrounding whitespace, are not
modelled). -/
def parseSignedInt (cs : List Char) : Option Int :=
  match cs with
  | '+' :: ds =>
    if ds ≠ [] ∧ ds.all Char.isDigit then some (digitsToInt ds) else none
  | '-' :: ds =>
    if ds ≠ [] ∧ ds.all Char.isDigit then some (-digitsToInt ds) else none
  | ds =>
    if ds ≠ [] ∧ ds.all Char.isDigit then some (digitsToInt ds) else none

/-- The expanded-prefix handling at the top of `isodate.parse_iso`:
`if expand_digits:` is false for `None` and `0`; otherwise the first
`expand_digits + 1` characters are parsed as the signed expanded value and
removed.  (A negative `expand_digits` would slice from the string's end in
Python and in practice fail `int()`; modelled as a failure.) -/
def stripExpanded (expandDigits : Option Int) (v : List Char) :
    Option (Option Int × List Char) :=
  match expandDigits with
  | none => some (none, v)
  | some n =>
    if n = 0 then some (none, v)
    else if n < 0 then none
    else
      match parseSignedInt (v.take (n + 1).toNat) with
      | none => none
      | some k => some (some k, v.drop (n + 1).toNat)

/-- `optEq o v` is the `orig is not None and orig != actu` test of the
validation loop: vacuously true for an omitted field. -/
def optEq (o : Option Int) (v : Int) : Bool :=
  match o with
  | none => true
  | some a => a == v

/-- The `validate` loop at the end of the `iso_implied` setter: every
originally supplied field must equal the recomputed field, otherwise
`ValueError` ("Inconsistent arguments"). -/
def consistentWithOrig (expanded : Option Int) (p : PartialDate)
    (f : DateFields) : Bool :=
  optEq expanded f.iso_expanded && optEq p.century f.iso_century &&
  optEq p.year f.iso_year && optEq p.month f.iso_month &&
  optEq p.dayofmonth f.iso_dayofmonth && optEq p.dayofyear f.iso_dayofyear &&
  optEq p.weekcentury f.iso_weekcentury && optEq p.weekdecade f.iso_weekdecade &&
  optEq p.weekyearofdec f.iso_weekyearofdec && optEq p.weekofyear f.iso_weekofyear &&
  optEq p.dayofweek f.iso_dayofweek

/-- `isodate.__init__` followed by the `iso_implied` setter with implied
reference `ref` (the constructor sets `iso_implied` to `today()` unless
every field including `expanded` was supplied, in which case the fields
are stored as given with no recomputation or cross-validation). -/
def isodate_new (expanded : Option Int) (p : PartialDate) (ref : DateFields) :
    Option DateFields :=
  if p = emptyPartial then none
  else
    match expanded, p.century, p.year, p.month, p.dayofmonth, p.dayofyear,
        p.weekcentury, p.weekdecade, p.weekyearofdec, p.weekofyear, p.dayofweek with
    | some e, some c, some y, some m, some dm, some doy, some wc, some wd,
        some wyd, some woy, some dow =>
      some ⟨e, c, y, m, dm, doy, wc, wd, wyd, woy, dow⟩
    | _, _, _, _, _, _, _, _, _, _, _ =>
      match compute_all_fields expanded p.century p.year p.month p.dayofmonth
          p.dayofyear p.weekcentury p.weekdecade p.weekyearofdec p.weekofyear
          p.dayofweek ref with
      | none => none
      | some f => if consistentWithOrig expanded p f then some f else none

/-- `isodate.parse_iso` with the process-wide implied "today" made an
explicit argument `ref`: strip any expanded prefix, classify by
(has hyphen, has 'W') and exact length, try the registered patterns in
declared order, and construct an `isodate` from the first match;
`ValueError` is modelled as `none`. -/
def parse_iso (value : String) (expandDigits : Option Int) (ref : DateFields) :
    Option DateFields :=
  match stripExpanded expandDigits value.toList with
  | none => none
  | some (exp, v) =>
    match representations (v.contains '-') (v.contains 'W') v.length with
    | none => none
    | some pats =>
      match firstMatch pats v with
      | none => none
      | some p => isodate_new exp p ref

/-- Module-level representation constant `CALENDAR`. -/
def CALENDAR : Nat := 0b1101110001

/-- Module-level representation constant `ORDINAL`. -/
def ORDINAL : Nat := 0b1101001001

/-- Module-level representation constant `WEEK`. -/
def WEEK : Nat := 0b1111000111

/-- Module-level reduced/truncated mask pair `CENTURY`. -/
def CENTURY : Nat × Nat := (0b1100000001, 0b1111111111)

/-- Module-level reduced/truncated mask pair `DECADE`. -/
def DECADE : Nat × Nat := (0b1110000001, 0b0011000111)

/-- Module-level reduced/truncated mask pair `YEAR`. -/
def YEAR : Nat × Nat := (0b1101000001, 0b0001111111)

/-- Module-level reduced/truncated mask pair `MONTH`. -/
def MONTH : Nat × Nat := (0b1111100001, 0b0000110001)

/-- Module-level reduced/truncated mask pair `DAYOFMONTH`. -/
def DAYOFMONTH : Nat × Nat := (0b1111110001, 0b0000010001)

/-- Module-level reduced/truncated mask pair `DAYOFYEAR`. -/
def DAYOFYEAR : Nat × Nat := (0b1111001001, 0b0000001001)

/-- Module-level reduced/truncated mask pair `WEEKOFYEAR`. -/
def WEEKOFYEAR : Nat × Nat := (0b1111000101, 0b0000000111)

/-- Module-level reduced/truncated mask pair `DAYOFWEEK`. -/
def DAYOFWEEK : Nat × Nat := (0b1111000111, 0b0000000011)

/-- Python `"{0:0Nd}".format(n)`: decimal rendering zero-padded to
`width`, with sign-aware fill. -/
def py0pad (width : Nat) (n : Int) : String :=
  let mag := toString n.natAbs
  let sign := if n < 0 then "-" else ""
  if sign.length + mag.length < width then
    sign ++ String.mk (List.replicate (width - sign.length - mag.length) '0') ++ mag
  else sign ++ mag

/-- Python format spec `0=+2d` used for `iso_expanded`: the sign is always
shown and digits are zero-filled to total width 2. -/
def pyExpPad (n : Int) : String :=
  let mag := toString n.natAbs
  let sign := if n < 0 then "-" else "+"
  if 1 + mag.length < 2 then
    sign ++ String.mk (List.replicate (2 - 1 - mag.length) '0') ++ mag
  else sign ++ mag

/-- `isodate.code2fmt`: the static bit-coded key → template table; each
template is rendered with the value's fields. -/
def code2fmt (code : Nat) : Option (DateFields → String) :=
  match code with
  | 0b0101110001 => some fun d => py0pad 2 d.iso_century ++ py0pad 2 d.iso_year ++
      py0pad 2 d.iso_month ++ py0pad 2 d.iso_dayofmonth
  | 0b0101110000 => some fun d => py0pad 2 d.iso_century ++ py0pad 2 d.iso_year ++
      "-" ++ py0pad 2 d.iso_month ++ "-" ++ py0pad 2 d.iso_dayofmonth
  | 0b0101100001 => some fun d => py0pad 2 d.iso_century ++ py0pad 2 d.iso_year ++
      "-" ++ py0pad 2 d.iso_month
  | 0b0101000001 => some fun d => py0pad 2 d.iso_century ++ py0pad 2 d.iso_year
  | 0b0100000001 => some fun d => py0pad 2 d.iso_century
  | 0b0001110001 => some fun d => py0pad 2 d.iso_year ++ py0pad 2 d.iso_month ++
      py0pad 2 d.iso_dayofmonth
  | 0b0001110000 => some fun d => py0pad 2 d.iso_year ++ "-" ++
      py0pad 2 d.iso_month ++ "-" ++ py0pad 2 d.iso_dayofmonth
  | 0b0001100001 => some fun d => "-" ++ py0pad 2 d.iso_year ++ py0pad 2 d.iso_month
  | 0b0001100000 => some fun d => "-" ++ py0pad 2 d.iso_year ++ "-" ++
      py0pad 2 d.iso_month
  | 0b0001000001 => some fun d => "-" ++ py0pad 2 d.iso_year
  | 0b0000110001 => some fun d => "--" ++ py0pad 2 d.iso_month ++
      py0pad 2 d.iso_dayofmonth
  | 0b0000110000 => some fun d => "--" ++ py0pad 2 d.iso_month ++ "-" ++
      py0pad 2 d.iso_dayofmonth
  | 0b0000100001 => some fun d => "--" ++ py0pad 2 d.iso_month
  | 0b0000100000 => some fun d => "--" ++ py0pad 2 d.iso_month
  | 0b0000010001 => some fun d => "---" ++ py0pad 2 d.iso_dayofmonth
  | 0b1101110001 => some fun d => pyExpPad d.iso_expanded ++
      py0pad 2 d.iso_century ++ py0pad 2 d.iso_year ++ py0pad 2 d.iso_month ++
      py0pad 2 d.iso_dayofmonth
  | 0b1101110000 => some fun d => pyExpPad d.iso_expanded ++
      py0pad 2 d.iso_century ++ py0pad 2 d.iso_year ++ "-" ++
      py0pad 2 d.iso_month ++ "-" ++ py0pad 2 d.iso_dayofmonth
  | 0b1101100001 => some fun d => pyExpPad d.iso_expanded ++
      py0pad 2 d.iso_century ++ py0pad 2 d.iso_year ++ "-" ++ py0pad 2 d.iso_month
  | 0b1101000001 => some fun d => pyExpPad d.iso_expanded ++
      py0pad 2 d.iso_century ++ py0pad 2 d.iso_year
  | 0b1100000001 => some fun d => pyExpPad d.iso_expanded ++ py0pad 2 d.iso_century
  | 0b0101001001 => some fun d => py0pad 2 d.iso_century ++ py0pad 2 d.iso_year ++
      py0pad 3 d.iso_dayofyear
  | 0b0101001000 => some fun d => py0pad 2 d.iso_century ++ py0pad 2 d.iso_year ++
      "-" ++ py0pad 3 d.iso_dayofyear
  | 0b0001001001 => some fun d => py0pad 2 d.iso_year ++ py0pad 3 d.iso_dayofyear
  | 0b0001001000 => some fun d => py0pad 2 d.iso_year ++ "-" ++
      py0pad 3 d.iso_dayofyear
  | 0b0000001001 => some fun d => "-" ++ py0pad 3 d.iso_dayofyear
  | 0b1101001001 => some fun d => pyExpPad d.iso_expanded ++
      py0pad 2 d.iso_century ++ py0pad 2 d.iso_year ++ py0pad 3 d.iso_dayofyear
  | 0b1101001000 => some fun d => pyExpPad d.iso_expanded ++
      py0pad 2 d.iso_century ++ py0pad 2 d.iso_year ++ "-" ++
      py0pad 3 d.iso_dayofyear
  | 0b0111000111 => some fun d => py0pad 2 d.iso_weekcentury ++
      py0pad 1 d.iso_weekdecade ++ py0pad 1 d.iso_weekyearofdec ++ "W" ++
      py0pad 2 d.iso_weekofyear ++ py0pad 1 d.iso_dayofweek
  | 0b0111000110 => some fun d => py0pad 2 d.iso_weekcentury ++
      py0pad 1 d.iso_weekdecade ++ py0pad 1 d.iso_weekyearofdec ++ "-W" ++
      py0pad 2 d.iso_weekofyear ++ "-" ++ py0pad 1 d.iso_dayofweek
  | 0b0111000101 => some fun d => py0pad 2 d.iso_weekcentury ++
      py0pad 1 d.iso_weekdecade ++ py0pad 1 d.iso_weekyearofdec ++ "W" ++
      py0pad 2 d.iso_weekofyear
  | 0b0111000100 => some fun d => py0pad 2 d.iso_weekcentury ++
      py0pad 1 d.iso_weekdecade ++ py0pad 1 d.iso_weekyearofdec ++ "-W" ++
      py0pad 2 d.iso_weekofyear
  | 0b0011000111 => some fun d => py0pad 1 d.iso_weekdecade ++
      py0pad 1 d.iso_weekyearofdec ++ "W" ++ py0pad 2 d.iso_weekofyear ++
      py0pad 1 d.iso_dayofweek
  | 0b0011000110 => some fun d => py0pad 1 d.iso_weekdecade ++
      py0pad 1 d.iso_weekyearofdec ++ "-W" ++ py0pad 2 d.iso_weekofyear ++
      "-" ++ py0pad 1 d.iso_dayofweek
  | 0b0011000101 => some fun d => py0pad 1 d.iso_weekdecade ++
      py0pad 1 d.iso_weekyearofdec ++ "W" ++ py0pad 2 d.iso_weekofyear
  | 0b0011000100 => some fun d => py0pad 1 d.iso_weekdecade ++
      py0pad 1 d.iso_weekyearofdec ++ "-W" ++ py0pad 2 d.iso_weekofyear
  | 0b0001000111 => some fun d => "-" ++ py0pad 1 d.iso_weekyearofdec ++ "W" ++
      py0pad 2 d.iso_weekofyear ++ py0pad 1 d.iso_dayofweek
  | 0b0001000110 => some fun d => "-" ++ py0pad 1 d.iso_weekyearofdec ++ "-W" ++
      py0pad 2 d.iso_weekofyear ++ "-" ++ py0pad 1 d.iso_dayofweek
  | 0b0001000101 => some fun d => "-" ++ py0pad 1 d.iso_weekyearofdec ++ "W" ++
      py0pad 2 d.iso_weekofyear
  | 0b0001000100 => some fun d => "-" ++ py0pad 1 d.iso_weekyearofdec ++ "-W" ++
      py0pad 2 d.iso_weekofyear
  | 0b0000000111 => some fun d => "-W" ++ py0pad 2 d.iso_weekofyear ++
      py0pad 1 d.iso_dayofweek
  | 0b0000000110 => some fun d => "-W" ++ py0pad 2 d.iso_weekofyear ++ "-" ++
      py0pad 1 d.iso_dayofweek
  | 0b0000000101 => some fun d => "-W" ++ py0pad 2 d.iso_weekofyear
  | 0b0000000011 => some fun d => "-W-" ++ py0pad 1 d.iso_dayofweek
  | 0b1111000111 => some fun d => pyExpPad d.iso_expanded ++
      py0pad 2 d.iso_weekcentury ++ py0pad 1 d.iso_weekdecade ++
      py0pad 1 d.iso_weekyearofdec ++ "W" ++ py0pad 2 d.iso_weekofyear ++
      py0pad 1 d.iso_dayofweek
  | 0b1111000110 => some fun d => pyExpPad d.iso_expanded ++
      py0pad 2 d.iso_weekcentury ++ py0pad 1 d.iso_weekdecade ++
      py0pad 1 d.iso_weekyearofdec ++ "-W" ++ py0pad 2 d.iso_weekofyear ++
      "-" ++ py0pad 1 d.iso_dayofweek
  | 0b1111000101 => some fun d => pyExpPad d.iso_expanded ++
      py0pad 2 d.iso_weekcentury ++ py0pad 1 d.iso_weekdecade ++
      py0pad 1 d.iso_weekyearofdec ++ "W" ++ py0pad 2 d.iso_weekofyear
  | 0b1111000100 => some fun d => pyExpPad d.iso_expanded ++
      py0pad 2 d.iso_weekcentury ++ py0pad 1 d.iso_weekdecade ++
      py0pad 1 d.iso_weekyearofdec ++ "-W" ++ py0pad 2 d.iso_weekofyear
  | _ => none

/-- The bit-coded key built by `isodate.isoformat` before table lookup:
family mask ANDed with the reduced and truncated masks, with the basic bit
cleared for extended form and the expanded bit cleared unless requested. -/
def fmtKey (representation : Nat) (basic : Bool)
    (reduced truncated : Option (Nat × Nat)) (expanded : Bool) : Nat :=
  let reduced := reduced.getD (0b1111111111, 0b1111111111)
  let truncated := truncated.getD (0b1111111111, 0b1111111111)
  let code := representation &&& reduced.1 &&& truncated.2
  let code := if !basic then code &&& 0b1111111110 else code
  if !expanded then code &&& 0b0111111111 else code

/-- `isodate.isoformat`: build the bit-coded key, retry once with the
basic bit forced on when extended form was requested and the key is not in
the table, and raise `ValueError` (modelled `none`) if it is still
absent; otherwise render the looked-up template with the value. -/
def isoformat (d : DateFields) (representation : Nat) (basic : Bool)
    (reduced truncated : Option (Nat × Nat)) (expanded : Bool) : Option String :=
  let code := fmtKey representation basic reduced truncated expanded
  let code := if !basic && (code2fmt code).isNone then code ||| 1 else code
  match code2fmt code with
  | none => none
  | some f => some (f d)

end isodate

open isodate

/-- Modelled from the spec sentence of C3, amended: `dayOfWeek =
((dayOfYear − adjustment) mod 7)` remapping 0→7; `weekOfYear =
floor((dayOfYear − dayOfWeek + 10)/7)`; a result of 0 rolls into week
52/53 of the prior ISO year, recomputed from that prior year's day count;
a result of 53 with `dayOfWeek < 4` becomes week 1 while the
week-numbering year is left at the given year (not incremented). -/
def weekdateSpecC3 (expanded century year dayofyear : Int) :
    Int × Int × Int × Int × Int :=
  let givenYear := expanded * 10000 + century * 100 + year
  let adj := adjustment_to_jan_1_day_of_year expanded century year
  let rawDow := (dayofyear - adj).emod 7
  let dayOfWeek := if rawDow = 0 then 7 else rawDow
  let weekOfYear := (dayofyear - dayOfWeek + 10).fdiv 7
  if weekOfYear = 0 then
    let prior := givenYear - 1
    let priorDays : Int :=
      if ¬(prior.emod 4 = 0 ∧ (prior.emod 100 ≠ 0 ∨ prior.emod 400 = 0))
      then 365 else 366
    (prior.fdiv 100, (prior.emod 100).fdiv 10, prior.emod 10,
      (priorDays + dayofyear - dayOfWeek + 10).fdiv 7, dayOfWeek)
  else if weekOfYear = 53 ∧ dayOfWeek < 4 then
    (givenYear.fdiv 100, (givenYear.emod 100).fdiv 10, givenYear.emod 10,
      1, dayOfWeek)
  else
    (givenYear.fdiv 100, (givenYear.emod 100).fdiv 10, givenYear.emod 10,
      weekOfYear, dayOfWeek)

/-- A concrete implied "today" reference used to exercise the parser:
2026-08-24, a Monday of ISO week 2026-W35 (all three field groups of this
record denote the same absolute day, ordinal 739852). -/
def ref2026 : DateFields := ⟨0, 20, 26, 8, 24, 236, 20, 2, 6, 35, 1⟩

/-- The fully-resolved `isodate` value for 1966-08-29 (ordinal 717942),
as produced by parsing `"19660829"`. -/
def v1966 : DateFields := ⟨0, 19, 66, 8, 29, 241, 19, 6, 6, 35, 1⟩

namespace isotime

/-- A naive local "now" reference: `datetime.datetime.now()` carries no
tzinfo, so only hour/minute/second can be implied from it. -/
structure NowTime where
  hour : Int
  minute : Int
  second : Int
deriving DecidableEq, Repr

/-- The resolved fields of an `isotime` object; `tz` is the fixed UTC
offset in minutes, `none` when no timezone is attached. -/
structure TimeFields where
  hour : Int
  minute : Int
  second : Int
  microsecond : Int
  tz : Option Int
deriving DecidableEq, Repr

/-- A concrete naive reference time (midnight). -/
def now0 : NowTime := ⟨0, 0, 0⟩

/-- `isotime.__init__` followed by the `iso_implied` setter with implied
value `datetime.datetime.now()` (the naive time `now`): validate each
supplied field, then default omitted fields — `microsecond` defaults to 0
and the timezone stays as supplied, because `now` is naive. -/
def isotime_new (now : NowTime) (hour minute second microsecond : Option Int)
    (tzinfo : Option Int) : Option TimeFields :=
  if hour = none ∧ minute = none ∧ second = none then none
  else if hour.any fun h => !decide (0 ≤ h ∧ h ≤ 24) then none
  else if minute.any fun m => !decide (0 ≤ m ∧ m ≤ 59) then none
  else if second.any fun s => !decide (0 ≤ s ∧ s < 60) then
    -- Python's inner test `second == 60 and (hour != 23 and minute != 59)`
    -- only selects between two error messages; both branches of the inner
    -- if/else raise, so every second outside [0, 59] — second 60 at
    -- 23:59 included — raises ValueError.
    none
  else if microsecond.any fun us => !decide (0 ≤ us ∧ us < 1000000) then none
  else
    some ⟨hour.getD now.hour, minute.getD now.minute, second.getD now.second,
      microsecond.getD 0, tzinfo⟩

/-- The named groups extracted by `isotime.normal_re` /
`isotime.truncated_re`: a `-` placeholder hour or minute is reported as
`none`, `tzsign` is `some true` for a `-` offset sign. -/
structure TimeMatch where
  hour : Option Int
  minute : Option Int
  second : Option Int
  fraction : Option (List Char)
  utc : Bool
  tzsign : Option Bool
  tzhour : Option Int
  tzmin : Option Int
deriving DecidableEq, Repr

/-- The optional leading time designator `T?`. -/
def stripT : List Char → List Char
  | 'T' :: rest => rest
  | v => v

/-- Two ASCII digits (`\d{2}`). -/
def takeD2 : List Char → Option (Int × List Char)
  | x :: y :: rest =>
    if x.isDigit ∧ y.isDigit then
      some (isodate.dval x * 10 + isodate.dval y, rest)
    else none
  | _ => none

/-- An optional group `(:?\d{2})?`: an optional colon followed by two
digits; on failure nothing is consumed (the colon alone is never taken,
matching the regex's backtracking behaviour). -/
def optColonD2 (v : List Char) : Option Int × List Char :=
  match v with
  | ':' :: rest =>
    (match takeD2 rest with
     | some (n, r) => (some n, r)
     | none => (none, v))
  | _ =>
    (match takeD2 v with
     | some (n, r) => (some n, r)
     | none => (none, v))

/-- Maximal run of ASCII digits. -/
def takeDigits : List Char → List Char × List Char
  | [] => ([], [])
  | x :: xs =>
    if x.isDigit then
      let (a, b) := takeDigits xs
      (x :: a, b)
    else ([], x :: xs)

/-- The optional fraction group `([,.]\d+)?`; a mark with no digit after
it is not consumed (the group fails and the regex skips it). -/
def optFraction (v : List Char) : Option (List Char) × List Char :=
  match v with
  | mark :: r =>
    if mark = ',' ∨ mark = '.' then
      match takeDigits r with
      | ([], _) => (none, v)
      | (ds, r2) => (some ds, r2)
    else (none, v)
  | [] => (none, [])

/-- The optional timezone group `(Z|[+-]\d{2}(\d{2})?)?` of `normal_re`:
result is (utc, tzsign, tzhour, tzmin); a sign with no two digits after it
leaves the group unmatched and consumes nothing. -/
def optTZ (v : List Char) :
    (Bool × Option Bool × Option Int × Option Int) × List Char :=
  match v with
  | 'Z' :: r => ((true, none, none, none), r)
  | '+' :: r =>
    (match takeD2 r with
     | some (h, r2) =>
       (match takeD2 r2 with
        | some (mn, r3) => ((false, some false, some h, some mn), r3)
        | none => ((false, some false, some h, none), r2))
     | none => ((false, none, none, none), v))
  | '-' :: r =>
    (match takeD2 r with
     | some (h, r2) =>
       (match takeD2 r2 with
        | some (mn, r3) => ((false, some true, some h, some mn), r3)
        | none => ((false, some true, some h, none), r2))
     | none => ((false, none, none, none), v))
  | _ => ((false, none, none, none), v)

/-- `isotime.normal_re` as a deterministic matcher:
`^T?\d{2}(:?\d{2}(:?\d{2})?)?([,.]\d+)?(Z|[+-]\d{2}(\d{2})?)?$`.
A skipped digit group leaves digits that no later group can consume, so
greedy matching agrees with the regex's backtracking. -/
def normalMatch (v0 : List Char) : Option TimeMatch :=
  let v := stripT v0
  match takeD2 v with
  | none => none
  | some (h, v1) =>
    let (mi, v2) := optColonD2 v1
    let (se, v3) :=
      match mi with
      | some _ => optColonD2 v2
      | none => (none, v2)
    let (fr, v4) := optFraction v3
    let (tzres, v5) := optTZ v4
    if v5 = [] then
      some ⟨some h, mi, se, fr, tzres.1, tzres.2.1, tzres.2.2.1, tzres.2.2.2⟩
    else none

/-- The body of `isotime.truncated_re` before its timezone groups:
`^T?(-)((-|\d{2}))(:?\d{2})?([,.]\d+)?` — the leading `-` is the hour
placeholder, the minute is `-` or two digits, then an optional second and
fraction.  Returns (minute, second, fraction). -/
def truncatedCore (v0 : List Char) :
    Option (Option Int × Option Int × Option (List Char)) :=
  let v := stripT v0
  match v with
  | '-' :: v1 =>
    let minuteStep : Option (Option Int × List Char) :=
      match v1 with
      | '-' :: r => some (none, r)
      | _ =>
        match takeD2 v1 with
        | some (n, r) => some (some n, r)
        | none => none
    match minuteStep with
    | none => none
    | some (mi, v2) =>
      let (se, v3) := optColonD2 v2
      let (fr, v4) := optFraction v3
      if v4 = [] then some (mi, se, fr) else none
  | _ => none

/-- `isotime.truncated_re`: the hour group is the literal `-` (reported
back as `None`), and the trailing groups `(?P<utc>)(?P<tzsign>)
(?P<tzhour>)(?P<tzmin>)` each match only the empty string, so a truncated
match never carries timezone information. -/
def truncatedMatch (v : List Char) : Option TimeMatch :=
  (truncatedCore v).map fun r => ⟨none, r.1, r.2.1, r.2.2, false, none, none, none⟩

/-- `isotime.parse_iso` with `datetime.datetime.now()` made the explicit
naive reference `now`: a value containing `-` is matched against the
truncated grammar, anything else against the normal grammar.  The
fractional distribution (`divmod` cascade) is modelled with exact
rational arithmetic in place of Python's binary floats; no statement in
this development depends on a fractional value. -/
def parse_iso (now : NowTime) (value : String) : Option TimeFields :=
  let v := value.toList
  let mo := if v.contains '-' then truncatedMatch v else normalMatch v
  match mo with
  | none => none
  | some m =>
    let fields : Option Int × Option Int × Option Int :=
      match m.fraction with
      | none => (m.minute, m.second, none)
      | some ds =>
        let frac : Rat := (isodate.digitsToInt ds : Rat) / ((10 : Rat) ^ ds.length)
        match m.second with
        | some s => (m.minute, some s, some (frac * 1000000).floor)
        | none =>
          match m.minute with
          | some mi =>
            let q : Rat := frac * 60 * 1000000
            (some mi, some (q / 1000000).floor,
              some (q.floor - 1000000 * (q / 1000000).floor))
          | none =>
            let q : Rat := frac * 60 * 60
            let mi : Int := (q / 60).floor
            let s : Rat := q - 60 * ((q / 60).floor : Int)
            (some mi, some (s * 1000000 / 1000000).floor,
              some ((s * 1000000).floor - 1000000 * (s * 1000000 / 1000000).floor))
    let tz : Option Int :=
      if m.utc then some 0
      else
        match m.tzsign with
        | some sgn =>
          let offh0 := m.tzhour.getD 0
          let offh := if sgn then -offh0 else offh0
          let offm := m.tzmin.getD 0
          some (offh * 60 + offm)
        | none => none
    isotime_new now m.hour fields.1 fields.2.1 fields.2.2 tz

end isotime

/-- C3 counterexample: for 2003-12-29 (expanded 0, century 20, year 3,
day-of-year 363) the code computes week 1 with the week-numbering year
still 2003 (digits 20/0/3), not 2004 as the claim states. -/
theorem c3_roll_forward_counterexample :
    weekdate_from_ordinal 0 20 3 363 = (20, 0, 3, 1, 1) ∧
    weekdate_from_ordinal 0 20 3 363 ≠ (20, 0, 4, 1, 1) := by
  constructor
  · decide
  · decide

/-- C3 (amended): for every year designation and every day-of-year in
range, `weekdate_from_ordinal` computes `dayOfWeek = ((dayOfYear −
adjustment) mod 7)` with 0 remapped to 7 and `weekOfYear = floor((dayOfYear
− dayOfWeek + 10)/7)`; a 0 result rolls into week 52/53 of the prior ISO
year (recomputed from that prior year's day count), and a result of 53
with `dayOfWeek < 4` becomes week 1 with the week-numbering year left
unchanged. -/
theorem c3_weekdate_amended (expanded century year dayofyear : Int)
    (h1 : 1 ≤ dayofyear) (h2 : dayofyear ≤ 366) :
    weekdate_from_ordinal expanded century year dayofyear =
      weekdateSpecC3 expanded century year dayofyear := rfl

/-- Witness for C3 at the concrete input 1966 day-of-year 241. -/
theorem c3_weekdate_amended_witness :
    (1 ≤ (241 : Int) ∧ (241 : Int) ≤ 366) ∧
    weekdate_from_ordinal 0 19 66 241 = weekdateSpecC3 0 19 66 241 :=
  ⟨by decide, c3_weekdate_amended 0 19 66 241 (by decide) (by decide)⟩

/-- C5: the leap-year test used by the date engine returns true if and
only if `year % 4 == 0 and (century != 0 or century % 4 == 0)` — in
particular year 1900 (century 19, year 0) counts as leap, i.e. no
"/100 not leap unless /400" exception is applied.  `compute_all_fields`,
`calendar_from_ordinal` and `ordinal_from_calendar` all evaluate the same
`pyLeap` expression. -/
theorem c5_leap_rule (today : DateFields) (e c y : Int) :
    (is_leap_year (some e) (some c) (some y) today = true ↔
      (y.emod 4 = 0 ∧ (c ≠ 0 ∨ c.emod 4 = 0))) ∧
    is_leap_year (some 0) (some 19) (some 0) today = true := by
  constructor
  · simp [is_leap_year, pyLeap]
  · rfl

/-- C10: the century conjunct of the leap-year rule is a tautology, so the
rule is equivalent to `year % 4 == 0` for every integer century and year. -/
theorem c10_century_conjunct_tautology :
    (∀ (today : DateFields) (e c y : Int),
      is_leap_year (some e) (some c) (some y) today = true ↔ y.emod 4 = 0) ∧
    (∀ c : Int, c ≠ 0 ∨ c.emod 4 = 0) := by
  have taut : ∀ c : Int, c ≠ 0 ∨ c.emod 4 = 0 := by
    intro c
    by_cases hc : c = 0
    · right; rw [hc]; rfl
    · left; exact hc
  refine ⟨?_, taut⟩
  intro today e c y
  simp [is_leap_year, pyLeap]
  intro _
  rcases taut c with h | h
  · left; exact h
  · right; exact h

/-- C1 ([code_bug]): with the implied "today" set to 2026-08-24
(`ref2026`), parsing `"19660829"` yields exactly the claimed field set
(absolute day 717942) and `"1966241"` yields the same absolute day, but
parsing `"1966W351"` takes century and year from the implied reference —
the week branch of `compute_all_fields` ignores the supplied
weekcentury/weekdecade/weekyearofdec when locating the year — so the
result denotes ordinal 739852 (a day of 2026), not 717942. -/
theorem c1_week_parse_uses_implied_year :
    isodate.parse_iso "19660829" none ref2026 =
      some ⟨0, 19, 66, 8, 29, 241, 19, 6, 6, 35, 1⟩ ∧
    toordinal ⟨0, 19, 66, 8, 29, 241, 19, 6, 6, 35, 1⟩ = 717942 ∧
    (isodate.parse_iso "1966241" none ref2026).map toordinal = some 717942 ∧
    (isodate.parse_iso "1966W351" none ref2026).map toordinal = some 739852 ∧
    (isodate.parse_iso "1966W351" none ref2026).map toordinal ≠ some 717942 := by
  refine ⟨by decide, by decide, by decide, by decide, by decide⟩

/-- C9: after expanded-prefix stripping, `parse_iso` classifies the input
by (contains '-', contains 'W') and its exact length, tries the compiled
patterns registered for that key in declared order, and raises
`ValueError` (returns `none`) both when the length has no registered list
for the shape and when no registered pattern matches. -/
theorem c9_parse_classification (expandDigits : Option Int) (value : String)
    (ref : DateFields) (exp : Option Int) (v : List Char)
    (hstrip : stripExpanded expandDigits value.toList = some (exp, v)) :
    isodate.parse_iso value expandDigits ref =
      match representations (v.contains '-') (v.contains 'W') v.length with
      | none => none
      | some pats =>
        match firstMatch pats v with
        | none => none
        | some p => isodate_new exp p ref := by
  unfold isodate.parse_iso
  rw [hstrip]

/-- Witness for C9: the length-3 hyphenless shape has no registered
pattern list, so `"990"` is rejected. -/
theorem c9_parse_classification_witness :
    stripExpanded none "990".toList = some (none, "990".toList) ∧
    isodate.parse_iso "990" none epoc = none := by
  have h := c9_parse_classification none "990" epoc none "990".toList (by decide)
  exact ⟨by decide, by rw [h]; decide⟩

/-- Each real month entry of the `months` table has coherent ordinal
ranges lying inside the year, in both the plain and the leap variant. -/
theorem months_get_ok : ∀ k : Nat, k < 13 →
    ((months.get? k).all fun ent => decide (1 ≤ k →
      (1 ≤ ent.start ∧ ent.start + ent.days - 1 = ent.stop ∧ ent.stop ≤ 365 ∧
       1 ≤ ent.leapStart ∧ ent.leapStart + ent.leapDays - 1 = ent.leapStop ∧
       ent.leapStop ≤ 366))) = true := by decide

/-- Range facts for the entry returned by `monthEntry` on a real month. -/
theorem monthEntry_ranges (m : Int) (ent : MonthEntry) (h1 : 1 ≤ m)
    (h2 : m ≤ 12) (hm : monthEntry m = some ent) :
    1 ≤ ent.start ∧ ent.start + ent.days - 1 = ent.stop ∧ ent.stop ≤ 365 ∧
    1 ≤ ent.leapStart ∧ ent.leapStart + ent.leapDays - 1 = ent.leapStop ∧
    ent.leapStop ≤ 366 := by
  have hget : months.get? m.toNat = some ent := by
    unfold monthEntry at hm
    rw [if_pos (by omega : (0 : Int) ≤ m)] at hm
    exact hm
  have hk := months_get_ok m.toNat (by omega)
  rw [hget] at hk
  simp only [Option.all_some, decide_eq_true_eq] at hk
  exact hk (by omega)

set_option maxRecDepth 8000 in
/-- The month ranges cover every day of year in `[1, 365]` (plain) or
`[1, 366]` (leap), so the `calendar_from_ordinal` scan always finds a
month for such a day. -/
theorem calSearch_covers :
    (∀ n : Nat, n < 366 →
      (calSearch true ((n : Int) + 1) months 0).isSome = true) ∧
    (∀ n : Nat, n < 365 →
      (calSearch false ((n : Int) + 1) months 0).isSome = true) := by
  constructor
  · decide
  · decide

/-- `calSearch` succeeds on every day of year in range. -/
theorem calSearch_isSome (lp : Bool) (doy : Int) (h1 : 1 ≤ doy)
    (h2 : doy ≤ if lp then 366 else 365) :
    (calSearch lp doy months 0).isSome = true := by
  have hn : doy = ((doy - 1).toNat : Int) + 1 := by omega
  rw [hn]
  cases lp
  · refine calSearch_covers.2 (doy - 1).toNat ?_
    simp at h2
    omega
  · refine calSearch_covers.1 (doy - 1).toNat ?_
    simp at h2
    omega

/-- C6: for every valid (century, year, month, dayofmonth), the week-date
triple (weekofyear, dayofweek, week-numbering year) that
`compute_all_fields` computes from `dayofyear = table-offset(month) +
dayofmonth − 1` is identical to the triple it computes from `month` and
`dayofmonth` directly. -/
theorem c6_cross_consistency (e c y m d : Int) (ref : DateFields)
    (ent : MonthEntry) (hm : monthEntry m = some ent) (h1 : 1 ≤ m)
    (h2 : m ≤ 12) (h3 : 1 ≤ d)
    (h4 : d ≤ if pyLeap c y then ent.leapDays else ent.days) :
    ∃ r1 r2,
      compute_all_fields (some e) (some c) (some y) none none
          (some ((if pyLeap c y then ent.leapStart else ent.start) + d - 1))
          none none none none none ref = some r1 ∧
      compute_all_fields (some e) (some c) (some y) (some m) (some d) none
          none none none none none ref = some r2 ∧
      (r1.iso_weekofyear, r1.iso_dayofweek,
        r1.iso_weekcentury * 100 + r1.iso_weekdecade * 10 + r1.iso_weekyearofdec) =
      (r2.iso_weekofyear, r2.iso_dayofweek,
        r2.iso_weekcentury * 100 + r2.iso_weekdecade * 10 + r2.iso_weekyearofdec) := by
  obtain ⟨hb1, hb2, hb3, hb4, hb5, hb6⟩ := monthEntry_ranges m ent h1 h2 hm
  have hr1 : 1 ≤ (if pyLeap c y then ent.leapStart else ent.start) + d - 1 := by
    cases hlp : pyLeap c y <;> simp [hlp] at h4 ⊢ <;> omega
  have hr2 : (if pyLeap c y then ent.leapStart else ent.start) + d - 1 ≤
      (if pyLeap c y then 366 else 365) := by
    cases hlp : pyLeap c y <;> simp [hlp] at h4 ⊢ <;> omega
  have hsearch := calSearch_isSome (pyLeap c y)
    ((if pyLeap c y then ent.leapStart else ent.start) + d - 1) hr1 hr2
  obtain ⟨pr, hpr⟩ := Option.isSome_iff_exists.mp hsearch
  obtain ⟨i, dm⟩ := pr
  refine ⟨⟨e, c, y, i, dm,
      (if pyLeap c y then ent.leapStart else ent.start) + d - 1,
      (weekdate_from_ordinal e c y
        ((if pyLeap c y then ent.leapStart else ent.start) + d - 1)).1,
      (weekdate_from_ordinal e c y
        ((if pyLeap c y then ent.leapStart else ent.start) + d - 1)).2.1,
      (weekdate_from_ordinal e c y
        ((if pyLeap c y then ent.leapStart else ent.start) + d - 1)).2.2.1,
      (weekdate_from_ordinal e c y
        ((if pyLeap c y then ent.leapStart else ent.start) + d - 1)).2.2.2.1,
      (weekdate_from_ordinal e c y
        ((if pyLeap c y then ent.leapStart else ent.start) + d - 1)).2.2.2.2⟩,
    ⟨e, c, y, m, d,
      (if pyLeap c y then ent.leapStart else ent.start) + d - 1,
      (weekdate_from_ordinal e c y
        ((if pyLeap c y then ent.leapStart else ent.start) + d - 1)).1,
      (weekdate_from_ordinal e c y
        ((if pyLeap c y then ent.leapStart else ent.start) + d - 1)).2.1,
      (weekdate_from_ordinal e c y
        ((if pyLeap c y then ent.leapStart else ent.start) + d - 1)).2.2.1,
      (weekdate_from_ordinal e c y
        ((if pyLeap c y then ent.leapStart else ent.start) + d - 1)).2.2.2.1,
      (weekdate_from_ordinal e c y
        ((if pyLeap c y then ent.leapStart else ent.start) + d - 1)).2.2.2.2⟩,
    ?_, ?_, rfl⟩
  · unfold compute_all_fields
    simp only [Option.getD_some]
    rw [if_neg (by omega)]
    unfold calendar_from_ordinal
    rw [hpr]
  · unfold compute_all_fields
    simp only [Option.getD_some]
    rw [hm]

/-- C8: `isoformat` looks the bit-coded key up in the static table; when
the key is absent and extended form was requested it retries exactly once
with the basic-format bit forced on; when the key is still absent it
raises `ValueError` (`none`), and otherwise it returns the looked-up
template rendered with the value's fields. -/
theorem c8_isoformat_lookup (d : DateFields) (representation : Nat)
    (basic : Bool) (reduced truncated : Option (Nat × Nat)) (expanded : Bool) :
    isoformat d representation basic reduced truncated expanded =
      match code2fmt (fmtKey representation basic reduced truncated expanded) with
      | some f => some (f d)
      | none =>
        if basic then none
        else
          (code2fmt (fmtKey representation basic reduced truncated expanded ||| 1)).map
            fun f => f d := by
  unfold isoformat
  cases hc : code2fmt (fmtKey representation basic reduced truncated expanded) with
  | none =>
    cases basic with
    | false =>
      cases h2 : code2fmt (fmtKey representation false reduced truncated expanded ||| 1) <;>
        simp [hc, h2]
    | true => simp [hc]
  | some f => cases basic <;> simp [hc]

/-- Witness for C8: the ordinal extended form of 1966-08-29 renders as
`"1966-241"` through the table lookup. -/
theorem c8_isoformat_lookup_witness :
    isoformat v1966 ORDINAL false none none false = some "1966-241" := by
  rw [c8_isoformat_lookup]
  decide

/-- C4 ([code_bug]): formatting the complete value 1966-08-29 in the WEEK
family gives `"1966W351"` (basic) and `"1966-W35-1"` (extended), but
re-parsing the basic form against an implied reference in 2026 yields a
value whose century and year come from the reference, so the round trip
`parse(format(V, WEEK, mode)) == V` fails (`__eq__` compares ordinals:
739852 ≠ 717942). -/
theorem c4_week_roundtrip_fails :
    isoformat v1966 WEEK true none none false = some "1966W351" ∧
    isoformat v1966 WEEK false none none false = some "1966-W35-1" ∧
    isodate.parse_iso "1966W351" none ref2026 =
      some ⟨0, 20, 26, 8, 24, 236, 19, 6, 6, 35, 1⟩ ∧
    isodate.parse_iso "1966-W35-1" none ref2026 =
      some ⟨0, 20, 26, 8, 24, 236, 19, 6, 6, 35, 1⟩ ∧
    dateEq ⟨0, 20, 26, 8, 24, 236, 19, 6, 6, 35, 1⟩ v1966 = false := by
  refine ⟨by decide, by decide, by decide, by decide, by decide⟩

/-- Witness for C6 at century 19, year 66, August 29. -/
theorem c6_cross_consistency_witness :
    monthEntry 8 = some ⟨31, 31, 213, 243, 214, 244⟩ ∧
    (∃ r1 r2,
      compute_all_fields (some 0) (some 19) (some 66) none none
          (some ((if pyLeap 19 66 then (⟨31, 31, 213, 243, 214, 244⟩ : MonthEntry).leapStart
                  else (⟨31, 31, 213, 243, 214, 244⟩ : MonthEntry).start) + 29 - 1))
          none none none none none epoc = some r1 ∧
      compute_all_fields (some 0) (some 19) (some 66) (some 8) (some 29) none
          none none none none none epoc = some r2 ∧
      (r1.iso_weekofyear, r1.iso_dayofweek,
        r1.iso_weekcentury * 100 + r1.iso_weekdecade * 10 + r1.iso_weekyearofdec) =
      (r2.iso_weekofyear, r2.iso_dayofweek,
        r2.iso_weekcentury * 100 + r2.iso_weekdecade * 10 + r2.iso_weekyearofdec)) :=
  ⟨by decide, c6_cross_consistency 0 19 66 8 29 epoc ⟨31, 31, 213, 243, 214, 244⟩
    (by decide) (by decide) (by decide) (by decide) (by decide)⟩

/-- C2 ([code_bug]): the constructor's second-field check rejects
`second=60` even at hour 23, minute 59 — the inner
`second == 60 and (hour != 23 and minute != 59)` test only chooses which
error message to raise — while every second in `[0, 59]` is accepted. -/
theorem c2_leap_second_rejected :
    isotime.isotime_new isotime.now0 (some 23) (some 59) (some 60) none none = none ∧
    ∀ s : Fin 60,
      (isotime.isotime_new isotime.now0 (some 23) (some 59)
        (some ((s : Nat) : Int)) none none).isSome = true := by
  refine ⟨by decide, by decide⟩

/-- A truncated-grammar match never reports a UTC marker or offset sign:
the timezone groups of `truncated_re` match only the empty string. -/
theorem truncatedMatch_no_tz (v : List Char) (m : isotime.TimeMatch)
    (h : isotime.truncatedMatch v = some m) :
    m.utc = false ∧ m.tzsign = none := by
  unfold isotime.truncatedMatch at h
  rw [Option.map_eq_some'] at h
  obtain ⟨r, _, hfr⟩ := h
  rw [← hfr]
  exact ⟨rfl, rfl⟩

/-- When the `isotime` constructor succeeds, the stored timezone is
exactly the one supplied (the implied `datetime.now()` value is naive). -/
theorem isotime_new_tz (now : isotime.NowTime)
    (hour minute second microsecond : Option Int) (tzinfo : Option Int)
    (r : isotime.TimeFields)
    (h : isotime.isotime_new now hour minute second microsecond tzinfo = some r) :
    r.tz = tzinfo := by
  unfold isotime.isotime_new at h
  split at h
  · exact Option.noConfusion h
  · split at h
    · exact Option.noConfusion h
    · split at h
      · exact Option.noConfusion h
      · split at h
        · exact Option.noConfusion h
        · split at h
          · exact Option.noConfusion h
          · injection h with h2
            rw [← h2]

/-- C7 counterexample: the truncated time inputs named by the claim,
`"-2050Z"` and `"--50+0100"`, are both rejected by `isotime.parse_iso`
(the truncated grammar's timezone groups match only the empty string). -/
theorem c7_truncated_tz_counterexample :
    isotime.parse_iso isotime.now0 "-2050Z" = none ∧
    isotime.parse_iso isotime.now0 "--50+0100" = none := by
  refine ⟨by decide, by decide⟩

/-- C7 (amended): only the normal time grammar accepts a timezone suffix
(e.g. `"232050Z"` parses with a zero UTC offset); any input containing
`-` is matched against the truncated grammar, whose timezone groups match
only the empty string, so every successfully parsed such input carries no
timezone. -/
theorem c7_tz_amended :
    (∀ (now : isotime.NowTime) (value : String) (r : isotime.TimeFields),
      value.toList.contains '-' = true →
      isotime.parse_iso now value = some r → r.tz = none) ∧
    isotime.parse_iso isotime.now0 "232050Z" = some ⟨23, 20, 50, 0, some 0⟩ := by
  constructor
  · intro now value r hc hp
    simp only [isotime.parse_iso] at hp
    rw [if_pos hc] at hp
    cases htm : isotime.truncatedMatch value.toList with
    | none =>
      rw [htm] at hp
      exact Option.noConfusion hp
    | some m =>
      rw [htm] at hp
      obtain ⟨hutc, hsgn⟩ := truncatedMatch_no_tz value.toList m htm
      have h2 := isotime_new_tz _ _ _ _ _ _ _ hp
      rw [h2, hutc, hsgn]
      simp
  · decide

/-- Witness for C7: `"-2050"` parses through the truncated grammar and the
resulting value carries no timezone. -/
theorem c7_tz_amended_witness :
    ("-2050".toList.contains '-' = true) ∧
    isotime.TimeFields.tz ⟨0, 20, 50, 0, none⟩ = none :=
  ⟨by decide, c7_tz_amended.1 isotime.now0 "-2050" ⟨0, 20, 50, 0, none⟩
    (by decide) (by decide)⟩

end Pyietflib
